import Mathlib

/-!
Verification of the Brooks Glycerin 22 ad-image generation pipeline.

This file is a shallow embedding of the repository consisting of three
Python scripts: a one-shot reference-image description script
(src/test.py) and two near-duplicate campaign generators
(src/test2.py and src/test3.py) that share the class
BrooksAdImageGenerator.  External collaborators (the text-generation
model, the image-generation model, the wall clock and the file system)
are modelled as oracles carried in an environment record; the pipeline
itself is translated function by function from the source.  Machine
integers are modelled as Int (Python integers are unbounded), fallible
calls as Option, thrown-versus-caught behaviour as explicit sum results,
and the JSON log at the level of JSON values (Python json.dump and
json.load are mutually inverse on the None/str/int/list/dict fragment
used here).
-/

/-! ## Basic data types -/

/-- Raw binary data, as returned by the image-generation SDK
(`image.image_bytes`). -/
abbrev Bytes := List UInt8

/-- A decoded raster image, the model of a `PIL.Image.Image` object.
Its payload is kept opaque. -/
structure PILImage where
  content : Bytes
deriving DecidableEq

/-- One element of the `contents` list handed to the text model:
either a decoded reference image or a text part. -/
inductive Content where
  | image (img : PILImage)
  | text (s : String)
deriving DecidableEq

/-- Model of `types.GenerateImagesConfig(number_of_images=…, aspect_ratio=…)`
from src/test2.py line 133 and src/test3.py line 160. -/
structure GenerateImagesConfig where
  number_of_images : Nat
  aspect_ratio : String
deriving DecidableEq

/-- The full request issued by `client.models.generate_images` in
`generate_image` (src/test2.py lines 130-134, src/test3.py lines 157-161). -/
structure ImagesRequest where
  model : String
  prompt : String
  config : GenerateImagesConfig
deriving DecidableEq

/-- Outcome of one image-generation call: the call either raised an
exception, or returned a (possibly empty) list of images as binary data.
A falsy or attribute-less response object is modelled as the empty list. -/
inductive ImageGenResult where
  | raised
  | ok (images : List Bytes)
deriving DecidableEq

/-- JSON values, covering the fragment produced by `_save_generation_log`
(null, strings, integers, arrays, objects). -/
inductive Json where
  | null
  | str (s : String)
  | int (n : Int)
  | arr (elems : List Json)
  | obj (fields : List (String × Json))

/-- One record of the campaign log, the dictionary appended per iteration
in `generate_all_ads` (src/test2.py lines 165-172, src/test3.py
lines 191-198). -/
structure CampaignItem where
  image_number : Int
  prompt : String
  image_path : Option String
  generated_at : String
deriving DecidableEq

/-- Externally observable effects of a run: console output, directory
creation, image-file writes, the JSON log write, and the two kinds of
network call (text model, image model), the latter tagged with the
iteration index. -/
inductive MainEffect where
  | printed (s : String)
  | madeDir (path : String)
  | wroteImage (path : String) (img : PILImage)
  | wroteLog (path : String) (content : Json)
  | textCall (i : Int)
  | imageCall (i : Int)

/-- Environment of one `BrooksAdImageGenerator` instance: its constructor
arguments together with oracles for the external collaborators.  `textGen`
and `imageGen` take the iteration index first so that distinct calls of a
nondeterministic service can be told apart. `textGen` returns `none` when
the call raises; `decodeBytes` returns `none` when PIL cannot decode the
returned bytes. -/
structure GenEnv where
  output_dir : String
  reference_images : List PILImage
  textGen : Int → List Content → Option String
  imageGen : Int → ImagesRequest → ImageGenResult
  decodeBytes : Bytes → Option PILImage
  clock : Int → String
  logTime : String

/-- Environment of the `main` entry point of src/test3.py: the process
environment plus the oracles threaded into the generator. -/
structure OSEnv where
  getenv : String → Option String
  fsImage : String → Option PILImage
  textGen : Int → List Content → Option String
  imageGen : Int → ImagesRequest → ImageGenResult
  decodeBytes : Bytes → Option PILImage
  clock : Int → String
  logTime : String

/-- The two variants of the BrooksAdImageGenerator class:
`t2` is src/test2.py, `t3` is src/test3.py. -/
inductive ClassVariant where
  | t2
  | t3
deriving DecidableEq

/-- The three top-level scripts of the repository. -/
inductive ScriptVariant where
  | testpy
  | test2
  | test3
deriving DecidableEq, Fintype

/-! ## Pure helpers (Python built-ins used by the scripts) -/

/-- Character-level test that `pre` is a prefix of `s` (the model of
Python `str.startswith`). -/
def startsWithB (pre s : String) : Bool := pre.data.isPrefixOf s.data

/-- Character-level test that `suf` is a suffix of `s` (the model of
Python `str.endswith`). -/
def endsWithB (suf s : String) : Bool := suf.data.isSuffixOf s.data

/-- Model of Python `os.path.join(a, b)` on POSIX for a single join:
an absolute second component replaces the first; otherwise a separator
is inserted unless the first component is empty or already ends in one. -/
def os_path_join (a b : String) : String :=
  if startsWithB ("/") b then b
  else if a = "" ∨ endsWithB ("/") a then a ++ b
  else a ++ "/" ++ b

/-- Model of the Python format specifier `f"{n:02d}"`: decimal rendering
zero-padded on the left to a minimum width of 2 (the sign counts toward
the width, and numbers needing more digits are not truncated). -/
def pad2 (n : Int) : String :=
  if 0 ≤ n ∧ n < 10 then "0" ++ toString n else toString n

/-- Model of Python `range(1, n + 1)` as used by `generate_all_ads`:
the indices 1, 2, …, n in order, empty when n ≤ 0. -/
def pyIndices (n : Int) : List Int :=
  (List.range n.toNat).map (fun (k : Nat) => (k : Int) + 1)

/-- Model of Python `"\n".join(lines)`. -/
def joinNL : List String → String
  | [] => ""
  | [s] => s
  | s :: rest => s ++ "\n" ++ joinNL rest

/-- Split a character list at every newline character; a list with no
newline yields a single segment, and each newline separates two
segments.  This is the model of reading a string back as lines. -/
def splitNL : List Char → List (List Char)
  | [] => [[]]
  | c :: cs =>
    match splitNL cs with
    | [] => [[]]
    | l :: ls => if c = '\n' then [] :: l :: ls else (c :: l) :: ls

/-- Model of the comprehension `f"{idx + 1}. {req}" for idx, req in
enumerate(reqs)` used by `_assemble_requirements_block`, with `k` the
enumeration offset (0 at the top-level call). -/
def numberLines : Nat → List String → List String
  | _, [] => []
  | k, r :: rs => (toString (k + 1) ++ ". " ++ r) :: numberLines (k + 1) rs

/-- Truthiness of an optional string under Python `if not api_key:`
(`None` and the empty string are falsy). -/
def pyStrTruthy : Option String → Bool
  | none => false
  | some s => !s.isEmpty

/-- Modelled from Python `int(str)` restricted to optionally signed
decimal literals: digits of the trimmed string, `none` when unparsable
(in which case the real call raises `ValueError`). -/
def parseDigits (s : String) : Option Nat :=
  if s = "" ∨ ¬ s.all Char.isDigit then none
  else some (s.foldl (fun acc c => acc * 10 + (c.toNat - 48)) 0)

/-- Modelled from Python `int(str)`: sign handling on top of
`parseDigits`. -/
def pyIntParse (s : String) : Option Int :=
  let t := s.trim
  if startsWithB ("-") t then (parseDigits (t.drop 1)).map (fun n => -(n : Int))
  else if startsWithB ("+") t then (parseDigits (t.drop 1)).map (fun n => (n : Int))
  else (parseDigits t).map (fun n => (n : Int))

/-- First binding of a key in a JSON object field list. -/
def jsonLookup : List (String × Json) → String → Option Json
  | [], _ => none
  | f :: rest, key => if f.1 = key then some f.2 else jsonLookup rest key

/-- JSON encoding of an optional image path (Python `None` becomes JSON
null, a path becomes a JSON string). -/
def optPathToJson : Option String → Json
  | some p => Json.str p
  | none => Json.null

/-- Inverse reading of `optPathToJson`. -/
def jsonToOptPath : Json → Option (Option String)
  | Json.null => some none
  | Json.str p => some (some p)
  | _ => none

/-- JSON encoding of one campaign item, exactly as the per-iteration
dictionary of `generate_all_ads` is serialised by `json.dump`. -/
def itemToJson (it : CampaignItem) : Json :=
  Json.obj [("image_number", Json.int it.image_number),
            ("prompt", Json.str it.prompt),
            ("image_path", optPathToJson it.image_path),
            ("generated_at", Json.str it.generated_at)]

/-- Structured reading of a campaign item back out of its JSON form,
as `json.load` followed by field access would produce. -/
def itemFromJson : Json → Option CampaignItem
  | Json.obj fields =>
    match jsonLookup fields ("image_number"), jsonLookup fields ("prompt"),
          jsonLookup fields ("image_path"), jsonLookup fields ("generated_at") with
    | some (Json.int n), some (Json.str pr), some jp, some (Json.str ts) =>
      (jsonToOptPath jp).map (fun op => ⟨n, pr, op, ts⟩)
    | _, _, _, _ => none
  | _ => none

/-- Read the `images` array of a serialised campaign log. -/
def logImages : Json → Option (List Json)
  | Json.obj fields =>
    match jsonLookup fields ("images") with
    | some (Json.arr xs) => some xs
    | _ => none
  | _ => none

/-- Read the `total_images` field of a serialised campaign log. -/
def logTotal : Json → Option Int
  | Json.obj fields =>
    match jsonLookup fields ("total_images") with
    | some (Json.int n) => some n
    | _ => none
  | _ => none

/-- A file system holding JSON documents, most recent write first. -/
def fsWrite (fs : List (String × Json)) (p : String) (v : Json) :
    List (String × Json) :=
  (p, v) :: fs

/-- Read a path from the modelled file system (most recent write wins,
which is what overwriting with `open(path, "w")` produces). -/
def fsRead : List (String × Json) → String → Option Json
  | [], _ => none
  | f :: rest, p => if f.1 = p then some f.2 else fsRead rest p

/-! ## Source constants (string literals of the repository) -/

/-- The creative brief literal, identical in src/test2.py lines 45-65 and
src/test3.py lines 74-94.  The Python triple-quoted literal contains
stray quote characters and embedded escape sequences; they are
reproduced exactly. -/
def creative_brief : String :=
  "\n            Brooks Glycerin 22 Creative Brief:\n\n\"\n            \"Product: Brooks Glycerin 22 flagship high-cushion running shoe\n\n\"\n            \"Key Features:\n\"\n            \"– DNA Tuned Cushioning: nitrogen-infused, dual-size cell foam\n\"\n            \"– Engineered Double Jacquard Knit Upper: breathable & flexible\n\"\n            \"– Broad Platform: stabilises foot for smooth transitions\n\"\n            \"– Modern Design: fresh colourways & sculpted midsole\n\n\"\n            \"Target Audience: neutral runners, daily trainers, fitness enthusiasts (25-55)\n\"\n            \"USP: \"Supreme comfort meets responsive performance—every step, every mile.\"\n\"\n            \"Tone: confident, inviting, empowering, performance-driven, inclusive\n\"\n            \"Tagline: \"THE ALL-NEW GLYCERIN 22\"\n\"\n            \"Mandatories:\n\"\n            \"– Show Glycerin 22 in action\n\"\n            \"– Feature close-ups of DNA Tuned midsole & knit upper\n\"\n            \"– Include Brooks branding elements\n\"\n            \"– Modern, dynamic composition\n\"\n            \"– Clean typography for brand name (BROOKS) & tagline\n\"\n            "

/-- The style-only guidance block `visual_instruction` of
src/test3.py lines 116-126, reproduced exactly. -/
def visual_instruction : String :=
  "\nThe reference images shown above are **only** for layout style. \nUse them to understand:\n– The exact font style of the \"BROOKS\" brand name\n– The exact way “THE ALL-NEW GLYCERIN 22” overlay is styled and positioned\n– The use of bold fonts, gradients, shadows, or boxed color backgrounds\n⛔ Do NOT copy or describe the exact shoe in these images. \n⛔ Do NOT refer to the background, clothing, socks, legs, or any specific scene. \nOnly apply the same **typographic overlay approach** when composing the visual prompt.\nMake sure you position the brand name and tagline, but in a way that fits the new scene you create.\n"

/-- The `prompt_requirements` list of each variant.  The src/test2.py list
(lines 73-86) has 11 elements: the source omits a comma after its tenth
entry, so Python implicit string concatenation merges what reads as two
requirements into one; this is reproduced exactly.  The src/test3.py list
(lines 96-110) has 13 elements. -/
def requirementsOf : ClassVariant → List String
  | ClassVariant.t2 =>
    ["Generate a **fresh, non-repetitive concept** for this image only (don’t echo earlier prompts).",
     "Depict the product in a visually compelling way — this may include a full-body runner, just the lower leg/foot in motion, or the shoe alone, depending on what best fits the concept.",
     "Reinforce the brand tone: confident, empowering, inclusive, performance-driven.",
     "Place the scene in a **specific time, location, and atmosphere** that amplifies comfort and motion.",
     "Direct the viewer’s eye with strong composition cues.",
     "Specify camera viewpoint and technical look: lens focal length, aperture, motion blur, or—if illustrative—brush style/texture.",
     "Define lighting mood and a colour palette that harmonises with Brooks brand hues.",
     "Integrate **subtle Brooks identifiers** without cluttering the frame.",
     "Overlay the **brand** and the **tagline** in negative space using clean, modern typography.",
     "Choose an atmosphere (e.g. elegant, vibrant, kinetic, tranquil, earthy, viblant, dynamic, chic, modern, urban, moody, or serene) that complements the shoe\x27s identity and enhances visual storytelling.Highlight at least one technical feature (DNA-Tuned midsole cell structure, knit upper texture) in crisp detail.",
     "Include a short **negative prompt** to avoid rival logos, distorted anatomy, low-poly artefacts, or text errors."]
  | ClassVariant.t3 =>
    ["Generate a **fresh, non-repetitive concept** for this image only (don’t echo earlier prompts).",
     "Show a **close-up of the Brooks Glycerin 22** as the unmistakable hero subject – zoom in on the midsole, knit texture, or side profile.",
     "Reinforce the brand tone: confident, empowering, inclusive, performance-driven.",
     "Place the scene in a **specific time, location, and atmosphere** that amplifies comfort and motion.",
     "If people appear, cast a **diverse, relatable runner** whose expression and body language convey joy and determination.",
     "Direct the viewer’s eye with strong composition cues (rule-of-thirds, leading lines, dynamic diagonals, shallow depth of field).",
     "Specify camera viewpoint and technical look: lens focal length, aperture, motion blur, or—if illustrative—brush style/texture.",
     "Define lighting mood (cinematic rim light, soft diffused dawn, neon street glow) and a colour palette that harmonises with Brooks brand hues.",
     "Integrate **subtle Brooks identifiers** (logo on tongue, chevron pattern, ‘Run Happy’ motif) without cluttering the frame.",
     "Overlay the **brand** and the **tagline** in negative space using clean, modern typography.",
     "Show **kinetic cues** that dramatise cushion and responsiveness.",
     "Highlight at least one technical feature (DNA-Tuned midsole cell structure, knit upper texture) in crisp detail.",
     "Include a short **negative prompt** to avoid rival logos, distorted anatomy, low-poly artefacts, or text errors."]

/-- The fixed fallback prompt returned on a text-model failure:
src/test2.py lines 118-121 (two adjacent literals, merged by Python) and
src/test3.py lines 149-151. -/
def fallbackOf : ClassVariant → String
  | ClassVariant.t2 =>
    "High‑quality advertising photo of Brooks Glycerin 22 running shoe, dynamic composition, dramatic lighting, modern aesthetics"
  | ClassVariant.t3 =>
    "High-quality ad photo of Brooks Glycerin 22 shoe with modern brand overlay, bold tagline, and energetic atmosphere."

/-! ## The pipeline (BrooksAdImageGenerator) -/

/-- Model of `_assemble_requirements_block` (src/test2.py lines 91-94,
src/test3.py lines 112-113): number the requirements from 1 and join the
lines with newlines.  Parametrised by the requirement list so that the
property can be stated for every list. -/
def assembleRequirementsBlock (reqs : List String) : String :=
  joinNL (numberLines 0 reqs)

/-- The `prompt_request` f-string assembled by `generate_image_prompt`:
src/test3.py lines 128-140 (which interpolates the creative brief, the
`visual_instruction` block, the image number and the requirements block)
and src/test2.py lines 102-111 (no visual-instruction block, different
surrounding text and indentation).  Static f-string parts are reproduced
exactly. -/
def promptRequestOf : ClassVariant → Int → String
  | ClassVariant.t3, image_number =>
    "\nBased on this creative brief for Brooks Glycerin 22 running shoes:\n" ++ creative_brief
    ++ "\n\n" ++ visual_instruction
    ++ "\n\nNow create a detailed, specific image-generation prompt for ad image #" ++ toString image_number
    ++ ".\n\nRequirements:\n" ++ assembleRequirementsBlock (requirementsOf ClassVariant.t3)
    ++ "\n\nReturn **only** the image prompt — no extra commentary.\n"
  | ClassVariant.t2, image_number =>
    "\n        Based on this creative brief for Brooks Glycerin 22 running shoes:\n\n        " ++ creative_brief
    ++ "\n\n        Create a detailed, specific image generation prompt for ad image #" ++ toString image_number
    ++ ".\n        Requirements:\n" ++ assembleRequirementsBlock (requirementsOf ClassVariant.t2)
    ++ "\n\n        Return **only** the image generation prompt with no additional explanation.\n        "

/-- The `contents` argument passed to the text model: src/test3.py
line 142 prepends the loaded reference images to the request string;
src/test2.py line 114 passes the request string alone. -/
def contentsOf : ClassVariant → GenEnv → Int → List Content
  | ClassVariant.t3, env, i =>
    env.reference_images.map Content.image ++ [Content.text (promptRequestOf ClassVariant.t3 i)]
  | ClassVariant.t2, _, i => [Content.text (promptRequestOf ClassVariant.t2 i)]

/-- Model of `generate_image_prompt` (src/test2.py lines 96-121,
src/test3.py lines 115-151): call the text model with the assembled
contents; on success return the stripped response text, on any raised
exception print a diagnostic (not modelled) and return the fixed
fallback prompt. -/
def generate_image_prompt (v : ClassVariant) (env : GenEnv) (image_number : Int) : String :=
  match env.textGen image_number (contentsOf v env image_number) with
  | some t => t.trim
  | none => fallbackOf v

/-- The request built by `generate_image` for the image model, including
its fixed model name and configuration (one image, square aspect ratio):
src/test2.py lines 130-134, src/test3.py lines 157-161. -/
def imagesRequest (prompt : String) : ImagesRequest :=
  ⟨"imagen-3.0-generate-002", prompt, ⟨1, "1:1"⟩⟩

/-- Model of `generate_image` (src/test2.py lines 126-148, src/test3.py
lines 153-176): call the image model; when the response carries at least
one image, decode its bytes with PIL and save it under
`<output_dir>/brooks_glycerin_22_ad_<index, 02d-padded>.png`, returning
the path; on an empty response return `none`; on any raised exception
(including a PIL decode failure) return `none`.  The second component
collects the file writes performed by the call. -/
def generate_image (env : GenEnv) (prompt : String) (image_number : Int) :
    Option String × List MainEffect :=
  match env.imageGen image_number (imagesRequest prompt) with
  | ImageGenResult.raised => (none, [])
  | ImageGenResult.ok [] => (none, [])
  | ImageGenResult.ok (b :: _) =>
    match env.decodeBytes b with
    | none => (none, [])
    | some img =>
      let filepath := os_path_join env.output_dir ("brooks_glycerin_22_ad_" ++ pad2 image_number ++ ".png")
      (some filepath, [MainEffect.wroteImage filepath img])

/-- One iteration of the `generate_all_ads` loop (src/test2.py
lines 159-174, src/test3.py lines 185-201): craft the prompt, generate
the image, and record the campaign item with the current timestamp.  The
effect list records the two network calls and any file write. -/
def runItem (v : ClassVariant) (env : GenEnv) (i : Int) : CampaignItem × List MainEffect :=
  let image_prompt := generate_image_prompt v env i
  let res := generate_image env image_prompt i
  (⟨i, image_prompt, res.1, env.clock i⟩,
   MainEffect.textCall i :: MainEffect.imageCall i :: res.2)

/-- Model of `_save_generation_log` (src/test2.py lines 184-198,
src/test3.py lines 208-222): the fixed log path inside the output
directory together with the JSON document written there in one
overwriting write. -/
def saveGenerationLog (env : GenEnv) (images_info : List CampaignItem) : String × Json :=
  (os_path_join env.output_dir ("generation_log.json"),
   Json.obj [("campaign", Json.str ("Brooks Glycerin 22 Ad Campaign")),
             ("generated_at", Json.str env.logTime),
             ("total_images", Json.int (images_info.length : Int)),
             ("images", Json.arr (images_info.map itemToJson))])

/-- Result of a full `generate_all_ads` run: the returned list of
campaign items and the ordered externally observable effects. -/
structure RunResult where
  items : List CampaignItem
  effects : List MainEffect

/-- Model of `generate_all_ads` (src/test2.py lines 153-179, src/test3.py
lines 178-206): iterate `runItem` over the indices 1..num_images,
accumulate the campaign items in order, save the generation log once at
the end, and return the accumulated list. -/
def generate_all_ads (v : ClassVariant) (env : GenEnv) (num_images : Int) : RunResult :=
  let pairs := (pyIndices num_images).map (runItem v env)
  let generated_images := pairs.map Prod.fst
  let log := saveGenerationLog env generated_images
  ⟨generated_images, (pairs.map Prod.snd).flatten ++ [MainEffect.wroteLog log.1 log.2]⟩

/-! ## Construction-time reference loading and the main entry point (src/test3.py) -/

/-- The warning printed when a reference image path cannot be loaded
(src/test3.py line 65); the appended exception text is elided as opaque. -/
def warnCouldNotLoad (path : String) : String :=
  "⚠️  Could not load reference image \x27" ++ path ++ "\x27"

/-- The message printed when no reference image was loaded
(src/test3.py line 67). -/
def textOnlyMsg : String :=
  "ℹ️  No reference images loaded – prompts will be text-only."

/-- Model of the reference-image loading loop of the constructor
(src/test3.py lines 59-67): attempt every path, keep the successfully
decoded images in order, print a warning per failed path, and print the
text-only notice when nothing was loaded. -/
def initRefs (fsImage : String → Option PILImage) (paths : List String) :
    List PILImage × List String :=
  let loaded := paths.filterMap fsImage
  let warns := paths.filterMap
    (fun p => match fsImage p with
              | none => some (warnCouldNotLoad p)
              | some _ => none)
  (loaded, warns ++ (if loaded.isEmpty then [textOnlyMsg] else []))

/-- The diagnostic printed by `main` when the credential is absent
(src/test2.py line 209, src/test3.py line 229). -/
def missingKeyMsg : String := "❌ GOOGLE_API_KEY missing (set in .env)"

/-- Model of `main` of src/test3.py (lines 225-249): check the
credential before doing anything else and abort with only a printed
diagnostic when it is falsy; otherwise parse the image count (a parse
failure raises, modelled by the `true` flag), create the output
directory, load the reference images, run the campaign, and never
re-raise from the orchestration (its exceptions are caught and printed).
Returns the effect trace and whether the call raised. -/
def mainT3 (os : OSEnv) : List MainEffect × Bool :=
  if pyStrTruthy (os.getenv ("GOOGLE_API_KEY")) = false then
    ([MainEffect.printed missingKeyMsg], false)
  else
    match pyIntParse ((os.getenv ("NUM_AD_IMAGES")).getD ("3")) with
    | none => ([], true)
    | some num_images =>
      let reference_paths := [(os.getenv ("REF_IMAGE_1")).getD ("beach_mock.png"),
                              (os.getenv ("REF_IMAGE_2")).getD ("bench_mock.png")]
      let refs := initRefs os.fsImage reference_paths
      let env : GenEnv := ⟨"brooks_glycerin_22_campaign", refs.1,
                           os.textGen, os.imageGen, os.decodeBytes, os.clock, os.logTime⟩
      let r := generate_all_ads ClassVariant.t3 env num_images
      (MainEffect.madeDir ("brooks_glycerin_22_campaign") :: refs.2.map MainEffect.printed
        ++ r.effects, false)

/-! ## MIME-type declarations for reference images per script -/

/-- For each script, the reference-image files it sends to the text
model, paired with the MIME type it explicitly declares for them.
src/test.py lines 24-30 sends `/home/ehwkang/DTS_folked/image/Brooks_1.png`
with an explicit `"mime_type": "image/png"`; src/test2.py sends no
reference image at all; src/test3.py (lines 59-67 and 142, default paths
from lines 234-237) passes decoded PIL image objects, declaring no MIME
type (the SDK infers it). -/
def referenceMimeDecls : ScriptVariant → List (String × Option String)
  | ScriptVariant.testpy => [("/home/ehwkang/DTS_folked/image/Brooks_1.png", some ("image/png"))]
  | ScriptVariant.test2 => []
  | ScriptVariant.test3 => [("beach_mock.png", none), ("bench_mock.png", none)]

/-! ## Helper lemmas -/

theorem runItem_fst (v : ClassVariant) (env : GenEnv) (i : Int) :
    (runItem v env i).1 =
      ⟨i, generate_image_prompt v env i,
       (generate_image env (generate_image_prompt v env i) i).1, env.clock i⟩ := rfl

theorem items_eq (v : ClassVariant) (env : GenEnv) (n : Int) :
    (generate_all_ads v env n).items = (pyIndices n).map (fun i => (runItem v env i).1) :=
  List.map_map Prod.fst (runItem v env) (pyIndices n)

theorem pyIndices_length (n : Int) : (pyIndices n).length = n.toNat := by
  rw [pyIndices, List.length_map, List.length_range]

theorem pyIndices_get? (n : Int) (k : Nat) (h : k < n.toNat) :
    (pyIndices n).get? k = some ((k : Int) + 1) := by
  rw [pyIndices, List.get?_map, List.get?_range h]
  rfl

theorem mem_pyIndices {n i : Int} : i ∈ pyIndices n ↔ 1 ≤ i ∧ i ≤ n := by
  simp only [pyIndices, List.mem_map, List.mem_range]
  constructor
  · rintro ⟨k, hk, rfl⟩
    omega
  · intro h
    exact ⟨(i - 1).toNat, by omega, by omega⟩

theorem items_length (v : ClassVariant) (env : GenEnv) (n : Int) :
    (generate_all_ads v env n).items.length = n.toNat := by
  rw [items_eq, List.length_map, pyIndices_length]

theorem items_numbers (v : ClassVariant) (env : GenEnv) (n : Int) :
    (generate_all_ads v env n).items.map CampaignItem.image_number = pyIndices n := by
  rw [items_eq, List.map_map]
  exact List.map_id _

theorem items_get? (v : ClassVariant) (env : GenEnv) (n : Int) (k : Nat) (h : k < n.toNat) :
    (generate_all_ads v env n).items.get? k = some ((runItem v env ((k : Int) + 1)).1) := by
  rw [items_eq, List.get?_map, pyIndices_get? n k h]
  rfl

theorem str_data_append (s t : String) : (s ++ t).data = s.data ++ t.data := by
  cases s
  cases t
  rfl

theorem str_append_assoc (a b c : String) : (a ++ b) ++ c = a ++ (b ++ c) := by
  cases a
  cases b
  cases c
  exact congrArg String.mk (List.append_assoc _ _ _)

theorem digitChar_isDigit (d : Nat) (h : d < 10) : (Nat.digitChar d).isDigit = true := by
  interval_cases d <;> decide

theorem toDigitsCore_mem (fuel : Nat) :
    ∀ (n : Nat) (ds : List Char) (c : Char),
      c ∈ Nat.toDigitsCore 10 fuel n ds → c ∈ ds ∨ c.isDigit = true := by
  induction fuel with
  | zero => exact fun n ds c hc => Or.inl hc
  | succ fuel ih =>
    intro n ds c hc
    simp only [Nat.toDigitsCore] at hc
    have hd : (Nat.digitChar (n % 10)).isDigit = true :=
      digitChar_isDigit (n % 10) (Nat.mod_lt n (by norm_num))
    split at hc
    · rcases List.mem_cons.mp hc with h1 | h1
      · exact Or.inr (h1 ▸ hd)
      · exact Or.inl h1
    · rcases ih _ _ _ hc with h1 | h1
      · rcases List.mem_cons.mp h1 with h2 | h2
        · exact Or.inr (h2 ▸ hd)
        · exact Or.inl h2
      · exact Or.inr h1

theorem repr_no_newline (n : Nat) : '\n' ∉ (Nat.repr n).data := by
  intro hmem
  have hmem2 : '\n' ∈ Nat.toDigits 10 n := by
    simpa [Nat.repr, Nat.toDigits, List.asString] using hmem
  have hmem3 : '\n' ∈ Nat.toDigitsCore 10 (n + 1) n [] := by
    simpa [Nat.toDigits] using hmem2
  rcases toDigitsCore_mem (n + 1) n [] _ hmem3 with h1 | h1
  · exact absurd h1 (List.not_mem_nil _)
  · exact absurd h1 (by decide)

theorem natToString_no_newline (n : Nat) : '\n' ∉ (toString n).data :=
  repr_no_newline n

theorem numberLines_length (k : Nat) (rs : List String) :
    (numberLines k rs).length = rs.length := by
  induction rs generalizing k with
  | nil => rfl
  | cons r rs ih => simp [numberLines, ih]

theorem numberLines_get? (k : Nat) (rs : List String) (j : Nat) (r : String)
    (h : rs.get? j = some r) :
    (numberLines k rs).get? j = some (toString (k + j + 1) ++ ". " ++ r) := by
  induction rs generalizing k j with
  | nil => simp at h
  | cons x rs ih =>
    cases j with
    | zero =>
      simp only [List.get?] at h
      cases h
      rfl
    | succ j =>
      simp only [List.get?] at h
      have h2 := ih (k + 1) j h
      have h3 : k + 1 + j + 1 = k + (j + 1) + 1 := by omega
      rw [h3] at h2
      simpa [numberLines, List.get?] using h2

theorem numberLines_no_nl (k : Nat) (rs : List String)
    (h : ∀ r ∈ rs, '\n' ∉ r.data) :
    ∀ l ∈ numberLines k rs, '\n' ∉ l.data := by
  induction rs generalizing k with
  | nil => intro l hl; simp [numberLines] at hl
  | cons r rs ih =>
    intro l hl
    rcases List.mem_cons.mp hl with h1 | h1
    · subst h1
      rw [str_data_append, str_data_append]
      intro hmem
      rcases List.mem_append.mp hmem with h2 | h2
      · rcases List.mem_append.mp h2 with h3 | h3
        · exact natToString_no_newline _ h3
        · exact absurd h3 (by decide)
      · exact h r (List.mem_cons_self _ _) h2
    · exact ih (k + 1) (fun x hx => h x (List.mem_cons_of_mem _ hx)) l h1

theorem splitNL_ne_nil (cs : List Char) : splitNL cs ≠ [] := by
  induction cs with
  | nil => simp [splitNL]
  | cons c cs ih =>
    rw [splitNL]
    cases h : splitNL cs with
    | nil => simp
    | cons l ls => by_cases hc : c = '\n' <;> simp [hc]

theorem splitNL_no_nl (cs : List Char) (h : '\n' ∉ cs) : splitNL cs = [cs] := by
  induction cs with
  | nil => rfl
  | cons c cs ih =>
    have hc : c ≠ '\n' := fun he => h (he ▸ List.mem_cons_self c cs)
    have hcs : '\n' ∉ cs := fun hm => h (List.mem_cons_of_mem c hm)
    rw [splitNL, ih hcs]
    simp [hc]

theorem splitNL_newline_append (a r : List Char) (h : '\n' ∉ a) :
    splitNL (a ++ '\n' :: r) = a :: splitNL r := by
  induction a with
  | nil =>
    rcases hr : splitNL r with _ | ⟨l, ls⟩
    · exact absurd hr (splitNL_ne_nil r)
    · simp [splitNL, hr]
  | cons c a ih =>
    have hc : c ≠ '\n' := fun he => h (he ▸ List.mem_cons_self c a)
    have ha : '\n' ∉ a := fun hm => h (List.mem_cons_of_mem c hm)
    rw [List.cons_append, splitNL, ih ha]
    simp [hc]

theorem splitNL_joinNL (ls : List String) (h0 : ls ≠ [])
    (h : ∀ l ∈ ls, '\n' ∉ l.data) :
    splitNL (joinNL ls).data = ls.map String.data := by
  induction ls with
  | nil => exact absurd rfl h0
  | cons x ls ih =>
    cases ls with
    | nil =>
      have hx : '\n' ∉ x.data := h x (List.mem_cons_self _ _)
      simpa [joinNL] using splitNL_no_nl x.data hx
    | cons y ls2 =>
      have hx : '\n' ∉ x.data := h x (List.mem_cons_self _ _)
      have hrest : ∀ l ∈ y :: ls2, '\n' ∉ l.data :=
        fun l hl => h l (List.mem_cons_of_mem _ hl)
      have hdata : (joinNL (x :: y :: ls2)).data = x.data ++ '\n' :: (joinNL (y :: ls2)).data := by
        have e : joinNL (x :: y :: ls2) = x ++ "\n" ++ joinNL (y :: ls2) := rfl
        rw [e, str_data_append, str_data_append, List.append_assoc]
        rfl
      rw [hdata, splitNL_newline_append _ _ hx, ih (List.cons_ne_nil y ls2) hrest]
      rfl

/-- Recogniser for the log-write effect. -/
def isLogWrite : MainEffect → Bool
  | MainEffect.wroteLog _ _ => true
  | _ => false

theorem generate_image_effects (env : GenEnv) (p : String) (i : Int) :
    (generate_image env p i).2 = [] ∨
    ∃ fp img, (generate_image env p i).2 = [MainEffect.wroteImage fp img] := by
  rcases hres : env.imageGen i (imagesRequest p) with _ | imgs
  · left
    simp [generate_image, hres]
  · cases imgs with
    | nil =>
      left
      simp [generate_image, hres]
    | cons b rest =>
      rcases hdec : env.decodeBytes b with _ | img
      · left
        simp [generate_image, hres, hdec]
      · right
        exact ⟨os_path_join env.output_dir ("brooks_glycerin_22_ad_" ++ pad2 i ++ ".png"), img,
               by simp [generate_image, hres, hdec]⟩

theorem runItem_no_log (v : ClassVariant) (env : GenEnv) (i : Int) :
    ∀ e ∈ (runItem v env i).2, isLogWrite e = false := by
  intro e he
  have h2 : (runItem v env i).2 =
      MainEffect.textCall i :: MainEffect.imageCall i ::
        (generate_image env (generate_image_prompt v env i) i).2 := rfl
  rw [h2] at he
  simp only [List.mem_cons] at he
  rcases he with rfl | rfl | he
  · rfl
  · rfl
  · rcases generate_image_effects env (generate_image_prompt v env i) i with h | ⟨fp, img, h⟩
    · rw [h] at he
      exact absurd he (List.not_mem_nil e)
    · rw [h] at he
      rcases List.mem_singleton.mp he with rfl
      rfl

theorem effects_eq (v : ClassVariant) (env : GenEnv) (n : Int) :
    (generate_all_ads v env n).effects =
      ((pyIndices n).map (fun i => (runItem v env i).2)).flatten
        ++ [MainEffect.wroteLog (saveGenerationLog env (generate_all_ads v env n).items).1
            (saveGenerationLog env (generate_all_ads v env n).items).2] := by
  have e1 : (generate_all_ads v env n).effects
      = (((pyIndices n).map (runItem v env)).map Prod.snd).flatten
        ++ [MainEffect.wroteLog
             (saveGenerationLog env (((pyIndices n).map (runItem v env)).map Prod.fst)).1
             (saveGenerationLog env (((pyIndices n).map (runItem v env)).map Prod.fst)).2] := rfl
  rw [e1, List.map_map]
  rfl

theorem log_write_once (v : ClassVariant) (env : GenEnv) (n : Int) :
    (generate_all_ads v env n).effects.filter isLogWrite =
      [MainEffect.wroteLog (saveGenerationLog env (generate_all_ads v env n).items).1
        (saveGenerationLog env (generate_all_ads v env n).items).2] := by
  rw [effects_eq, List.filter_append]
  have h1 : (((pyIndices n).map (fun i => (runItem v env i).2)).flatten).filter isLogWrite = [] := by
    rw [List.filter_eq_nil]
    intro e he
    rw [List.mem_flatten] at he
    rcases he with ⟨l, hl, hel⟩
    rw [List.mem_map] at hl
    rcases hl with ⟨i, hi, rfl⟩
    simp [runItem_no_log v env i e hel]
  rw [h1]
  rfl

/-- The part of the test3 `prompt_request` preceding the style-guidance
block. -/
def requestPrefixT3 : String :=
  "\nBased on this creative brief for Brooks Glycerin 22 running shoes:\n" ++ creative_brief ++ "\n\n"

/-- The part of the test3 `prompt_request` following the style-guidance
block. -/
def requestSuffixT3 (image_number : Int) : String :=
  "\n\nNow create a detailed, specific image-generation prompt for ad image #" ++ toString image_number
  ++ ".\n\nRequirements:\n" ++ assembleRequirementsBlock (requirementsOf ClassVariant.t3)
  ++ "\n\nReturn **only** the image prompt — no extra commentary.\n"

theorem promptRequestT3_decomp (i : Int) :
    promptRequestOf ClassVariant.t3 i = requestPrefixT3 ++ visual_instruction ++ requestSuffixT3 i := by
  simp only [promptRequestOf, requestPrefixT3, requestSuffixT3, str_append_assoc]

/-! ## Concrete sample environments for witnesses and counterexamples -/

/-- A decoder that accepts every byte string. -/
def sampleDecode : Bytes → Option PILImage := fun b => some ⟨b⟩

/-- An environment in which every external call fails: the text model and
the image model always raise. -/
def failEnv : GenEnv :=
  ⟨"brooks_glycerin_22_ads", [], fun _ _ => none, fun _ _ => ImageGenResult.raised,
   sampleDecode, fun _ => "2025-01-01 00:00:00", "2025-01-01 00:00:10"⟩

/-- An environment in which every external call succeeds, with no
reference image loaded. -/
def okEnv : GenEnv :=
  ⟨"brooks_glycerin_22_ads", [], fun _ _ => some ("a prompt"),
   fun _ _ => ImageGenResult.ok [[(37 : UInt8)]],
   sampleDecode, fun _ => "2025-01-01 00:00:00", "2025-01-01 00:00:10"⟩

/-- A process environment with every variable unset. -/
def noneOS : OSEnv :=
  ⟨fun _ => none, fun _ => none, fun _ _ => none, fun _ _ => ImageGenResult.raised,
   fun _ => none, fun _ => "2025-01-01 00:00:00", "2025-01-01 00:00:10"⟩

/-! ## Claim theorems -/

/-- C1: for every positive N, a completed `generate_all_ads(num_images=N)`
run returns exactly N campaign items whose `image_number` fields are
1..N in that order; the entry for index i is always present — its
`image_path` is whatever `generate_image` returned for i (null on
failure), never a missing entry — and the accumulated list itself is
handed to the log writer. -/
theorem c1_run_produces_full_sequence (v : ClassVariant) (env : GenEnv) (N : Int)
    (hN : 0 < N) :
    (generate_all_ads v env N).items.length = N.toNat ∧
    (generate_all_ads v env N).items.map CampaignItem.image_number = pyIndices N ∧
    (∀ i ∈ pyIndices N,
      (generate_all_ads v env N).items.get? (i - 1).toNat =
        some ⟨i, generate_image_prompt v env i,
              (generate_image env (generate_image_prompt v env i) i).1, env.clock i⟩) ∧
    MainEffect.wroteLog (saveGenerationLog env (generate_all_ads v env N).items).1
        (saveGenerationLog env (generate_all_ads v env N).items).2
      ∈ (generate_all_ads v env N).effects := by
  refine ⟨items_length v env N, items_numbers v env N, ?_, ?_⟩
  · intro i hi
    rcases mem_pyIndices.mp hi with ⟨h1, h2⟩
    have hk : (i - 1).toNat < N.toNat := by omega
    have hg := items_get? v env N (i - 1).toNat hk
    have hcast : (((i - 1).toNat : Int) + 1) = i := by omega
    rw [hcast] at hg
    rw [hg, runItem_fst]
  · rw [effects_eq]
    exact List.mem_append_right _ (List.mem_singleton.mpr rfl)

/-- Witness for C1: a concrete two-item run in which every external call
fails still yields items numbered 1, 2 and passes them to the log writer. -/
theorem c1_witness :
    (0 : Int) < 2 ∧
    ((generate_all_ads ClassVariant.t3 failEnv 2).items.length = (2 : Int).toNat ∧
     (generate_all_ads ClassVariant.t3 failEnv 2).items.map CampaignItem.image_number = pyIndices 2 ∧
     (∀ i ∈ pyIndices 2,
       (generate_all_ads ClassVariant.t3 failEnv 2).items.get? (i - 1).toNat =
         some ⟨i, generate_image_prompt ClassVariant.t3 failEnv i,
               (generate_image failEnv (generate_image_prompt ClassVariant.t3 failEnv i) i).1,
               failEnv.clock i⟩) ∧
     MainEffect.wroteLog
         (saveGenerationLog failEnv (generate_all_ads ClassVariant.t3 failEnv 2).items).1
         (saveGenerationLog failEnv (generate_all_ads ClassVariant.t3 failEnv 2).items).2
       ∈ (generate_all_ads ClassVariant.t3 failEnv 2).effects) :=
  ⟨by decide, c1_run_produces_full_sequence ClassVariant.t3 failEnv 2 (by decide)⟩

/-- C3: when the text-generation call for item i raises (in either
variant), `generate_image_prompt` does not propagate the failure: it
returns the variant's fixed fallback string verbatim — the same string
for every failing index — the run still records an entry for item i
carrying that fallback prompt, and every index of the loop is still
processed (the item numbers remain 1..N). -/
theorem c3_fallback_prompt_on_text_failure (v : ClassVariant) (env : GenEnv) (N i : Int)
    (hi : i ∈ pyIndices N)
    (hfail : env.textGen i (contentsOf v env i) = none) :
    generate_image_prompt v env i = fallbackOf v ∧
    (∀ j : Int, env.textGen j (contentsOf v env j) = none →
      generate_image_prompt v env j = generate_image_prompt v env i) ∧
    (generate_all_ads v env N).items.get? (i - 1).toNat =
      some ⟨i, fallbackOf v, (generate_image env (fallbackOf v) i).1, env.clock i⟩ ∧
    (generate_all_ads v env N).items.map CampaignItem.image_number = pyIndices N := by
  have hfb : generate_image_prompt v env i = fallbackOf v := by
    unfold generate_image_prompt
    rw [hfail]
  refine ⟨hfb, ?_, ?_, items_numbers v env N⟩
  · intro j hj
    unfold generate_image_prompt
    rw [hj, hfail]
  · rcases mem_pyIndices.mp hi with ⟨h1, h2⟩
    have hk : (i - 1).toNat < N.toNat := by omega
    have hg := items_get? v env N (i - 1).toNat hk
    have hcast : (((i - 1).toNat : Int) + 1) = i := by omega
    rw [hcast] at hg
    rw [hg, runItem_fst, hfb]

/-- Witness for C3: in a concrete two-item run whose text model always
raises, item 1 records the verbatim fallback prompt and item 2 is still
processed. -/
theorem c3_witness :
    (1 : Int) ∈ pyIndices 2 ∧
    failEnv.textGen 1 (contentsOf ClassVariant.t3 failEnv 1) = none ∧
    (generate_image_prompt ClassVariant.t3 failEnv 1 = fallbackOf ClassVariant.t3 ∧
     (∀ j : Int, failEnv.textGen j (contentsOf ClassVariant.t3 failEnv j) = none →
       generate_image_prompt ClassVariant.t3 failEnv j = generate_image_prompt ClassVariant.t3 failEnv 1) ∧
     (generate_all_ads ClassVariant.t3 failEnv 2).items.get? ((1 : Int) - 1).toNat =
       some ⟨1, fallbackOf ClassVariant.t3,
             (generate_image failEnv (fallbackOf ClassVariant.t3) 1).1, failEnv.clock 1⟩ ∧
     (generate_all_ads ClassVariant.t3 failEnv 2).items.map CampaignItem.image_number = pyIndices 2) :=
  ⟨by decide, rfl,
   c3_fallback_prompt_on_text_failure ClassVariant.t3 failEnv 2 1 (by decide) rfl⟩

/-- C4: when the image-generation call for item i raises or returns an
empty result list, `generate_image` returns null and performs no file
write for that index, and the campaign record list still contains the
entry for item i with a null `image_path`. -/
theorem c4_null_image_path_on_failure (v : ClassVariant) (env : GenEnv) (N i : Int)
    (hi : i ∈ pyIndices N)
    (hfail : env.imageGen i (imagesRequest (generate_image_prompt v env i)) = ImageGenResult.raised ∨
             env.imageGen i (imagesRequest (generate_image_prompt v env i)) = ImageGenResult.ok []) :
    generate_image env (generate_image_prompt v env i) i = (none, []) ∧
    (generate_all_ads v env N).items.get? (i - 1).toNat =
      some ⟨i, generate_image_prompt v env i, none, env.clock i⟩ := by
  have hnone : generate_image env (generate_image_prompt v env i) i = (none, []) := by
    unfold generate_image
    rcases hfail with h | h <;> rw [h]
  refine ⟨hnone, ?_⟩
  rcases mem_pyIndices.mp hi with ⟨h1, h2⟩
  have hk : (i - 1).toNat < N.toNat := by omega
  have hg := items_get? v env N (i - 1).toNat hk
  have hcast : (((i - 1).toNat : Int) + 1) = i := by omega
  rw [hcast] at hg
  rw [hg, runItem_fst, hnone]

/-- Witness for C4: in a concrete one-item run whose image model raises,
`generate_image` returns null with no write and the log entry for item 1
has a null image path. -/
theorem c4_witness :
    (1 : Int) ∈ pyIndices 1 ∧
    failEnv.imageGen 1 (imagesRequest (generate_image_prompt ClassVariant.t3 failEnv 1)) =
      ImageGenResult.raised ∧
    (generate_image failEnv (generate_image_prompt ClassVariant.t3 failEnv 1) 1 = (none, []) ∧
     (generate_all_ads ClassVariant.t3 failEnv 1).items.get? ((1 : Int) - 1).toNat =
       some ⟨1, generate_image_prompt ClassVariant.t3 failEnv 1, none, failEnv.clock 1⟩) :=
  ⟨by decide, rfl,
   c4_null_image_path_on_failure ClassVariant.t3 failEnv 1 1 (by decide) (Or.inl rfl)⟩

/-- C2 counterexample: with zero reference images loaded, prompt assembly
in src/test3.py does proceed (text-only contents, no crash), but the
assembled request string still CONTAINS the style-only guidance block —
`visual_instruction` is interpolated unconditionally — refuting the
claim that the request excludes it. -/
theorem c2_counterexample :
    okEnv.reference_images = [] ∧
    contentsOf ClassVariant.t3 okEnv 1 = [Content.text (promptRequestOf ClassVariant.t3 1)] ∧
    ∃ a b, promptRequestOf ClassVariant.t3 1 = a ++ visual_instruction ++ b :=
  ⟨rfl, rfl, ⟨requestPrefixT3, requestSuffixT3 1, promptRequestT3_decomp 1⟩⟩

/-- C2 (amended): when zero reference images were loaded, prompt assembly
proceeds in text-only mode without crashing — the contents handed to the
text model consist of the request string alone — and the text-only
fallback is observably logged at construction; however the assembled
request string still contains the style-only guidance block, which
src/test3.py includes unconditionally. -/
theorem c2_text_only_mode_block_still_present (env : GenEnv) (i : Int)
    (h : env.reference_images = [])
    (fsImage : String → Option PILImage) (paths : List String)
    (h2 : (initRefs fsImage paths).1 = []) :
    contentsOf ClassVariant.t3 env i = [Content.text (promptRequestOf ClassVariant.t3 i)] ∧
    (∃ a b, promptRequestOf ClassVariant.t3 i = a ++ visual_instruction ++ b) ∧
    textOnlyMsg ∈ (initRefs fsImage paths).2 := by
  refine ⟨?_, ⟨requestPrefixT3, requestSuffixT3 i, promptRequestT3_decomp i⟩, ?_⟩
  · show env.reference_images.map Content.image
        ++ [Content.text (promptRequestOf ClassVariant.t3 i)] = _
    rw [h]
    rfl
  · have h3 : (initRefs fsImage paths).2
        = paths.filterMap (fun p => match fsImage p with
            | none => some (warnCouldNotLoad p)
            | some _ => none)
          ++ (if (paths.filterMap fsImage).isEmpty then [textOnlyMsg] else []) := rfl
    have h4 : paths.filterMap fsImage = [] := h2
    rw [h3, h4]
    exact List.mem_append_right _ (by simp)

/-- Witness for the amended C2: a concrete generator with no reference
image and a loader for which both default paths fail. -/
theorem c2_witness :
    okEnv.reference_images = [] ∧
    (initRefs (fun _ => none) ["beach_mock.png", "bench_mock.png"]).1 = [] ∧
    (contentsOf ClassVariant.t3 okEnv 2 = [Content.text (promptRequestOf ClassVariant.t3 2)] ∧
     (∃ a b, promptRequestOf ClassVariant.t3 2 = a ++ visual_instruction ++ b) ∧
     textOnlyMsg ∈ (initRefs (fun _ => none) ["beach_mock.png", "bench_mock.png"]).2) :=
  ⟨rfl, rfl,
   c2_text_only_mode_block_still_present okEnv 2 rfl
     (fun _ => none) ["beach_mock.png", "bench_mock.png"] rfl⟩

/-- C5 counterexample: at image index 100 — reachable, since the
src/test2.py entry point defaults to 100 images — a successful
`generate_image` returns a path whose index numeral has three digits,
refuting "zero-padded to exactly 2 digits"; the `02d` format pads to a
minimum of two digits only. -/
theorem c5_counterexample :
    (generate_image okEnv ("p") 100).1 =
      some ("brooks_glycerin_22_ads/brooks_glycerin_22_ad_100.png") ∧
    pad2 100 = "100" ∧ ("100" : String).length ≠ 2 := by
  refine ⟨by decide, by decide, by decide⟩

/-- C5 (amended): every saved file path returned by `generate_image`
equals the output directory joined with the campaign prefix, an
underscore, the index zero-padded to a minimum of 2 digits (exactly 2
digits for every index 1..99, e.g. `_01.png` and `_02.png`; indices of
three or more digits keep their full decimal form) and the `.png`
extension, and every call requests exactly one square (1:1) image. -/
theorem c5_saved_path_format (env : GenEnv) (prompt : String) (i : Int)
    (path : String) (effs : List MainEffect)
    (h : generate_image env prompt i = (some path, effs)) :
    path = os_path_join env.output_dir ("brooks_glycerin_22_ad_" ++ pad2 i ++ ".png") ∧
    (∀ j ∈ pyIndices 99, (pad2 j).length = 2) ∧
    pad2 1 = "01" ∧ pad2 2 = "02" ∧
    imagesRequest prompt = ⟨"imagen-3.0-generate-002", prompt, ⟨1, "1:1"⟩⟩ := by
  refine ⟨?_, by decide, rfl, rfl, rfl⟩
  rcases hres : env.imageGen i (imagesRequest prompt) with _ | imgs
  · simp [generate_image, hres] at h
  · cases imgs with
    | nil => simp [generate_image, hres] at h
    | cons b rest =>
      rcases hdec : env.decodeBytes b with _ | img
      · simp [generate_image, hres, hdec] at h
      · simp only [generate_image, hres, hdec, Prod.mk.injEq, Option.some.injEq] at h
        exact h.1.symm

/-- Witness for the amended C5: a concrete successful call at index 2
saves under `..._02.png` with a single square image requested. -/
theorem c5_witness :
    generate_image okEnv ("a prompt") 2 =
      (some ("brooks_glycerin_22_ads/brooks_glycerin_22_ad_02.png"),
       [MainEffect.wroteImage ("brooks_glycerin_22_ads/brooks_glycerin_22_ad_02.png")
          ⟨[(37 : UInt8)]⟩]) ∧
    (("brooks_glycerin_22_ads/brooks_glycerin_22_ad_02.png" : String) =
       os_path_join okEnv.output_dir ("brooks_glycerin_22_ad_" ++ pad2 2 ++ ".png") ∧
     (∀ j ∈ pyIndices 99, (pad2 j).length = 2) ∧
     pad2 1 = "01" ∧ pad2 2 = "02" ∧
     imagesRequest ("a prompt") = ⟨"imagen-3.0-generate-002", "a prompt", ⟨1, "1:1"⟩⟩) :=
  ⟨rfl, c5_saved_path_format okEnv ("a prompt") 2
          ("brooks_glycerin_22_ads/brooks_glycerin_22_ad_02.png")
          [MainEffect.wroteImage ("brooks_glycerin_22_ads/brooks_glycerin_22_ad_02.png")
             ⟨[(37 : UInt8)]⟩] rfl⟩

/-- C6: for every nonempty list of newline-free requirement strings of
length k, the assembled requirements block is exactly the k
newline-separated lines in which line j (1-based) is the text `j. `
followed by the j-th requirement in list order; the assembly is a total
pure function (no error case exists in the embedding). -/
theorem c6_requirements_block_lines (reqs : List String)
    (h0 : reqs ≠ []) (hnl : ∀ r ∈ reqs, '\n' ∉ r.data) :
    splitNL (assembleRequirementsBlock reqs).data = (numberLines 0 reqs).map String.data ∧
    (splitNL (assembleRequirementsBlock reqs).data).length = reqs.length ∧
    (∀ j r, reqs.get? j = some r →
      (numberLines 0 reqs).get? j = some (toString (j + 1) ++ ". " ++ r)) ∧
    (∀ j r, reqs.get? j = some r →
      (splitNL (assembleRequirementsBlock reqs).data).get? j =
        some ((toString (j + 1) ++ ". " ++ r).data)) := by
  have hlines_nl : ∀ l ∈ numberLines 0 reqs, '\n' ∉ l.data := numberLines_no_nl 0 reqs hnl
  have hne : numberLines 0 reqs ≠ [] := by
    cases reqs with
    | nil => exact absurd rfl h0
    | cons r rs => simp [numberLines]
  have hsplit : splitNL (assembleRequirementsBlock reqs).data
      = (numberLines 0 reqs).map String.data :=
    splitNL_joinNL (numberLines 0 reqs) hne hlines_nl
  have hget : ∀ j r, reqs.get? j = some r →
      (numberLines 0 reqs).get? j = some (toString (j + 1) ++ ". " ++ r) := by
    intro j r hjr
    simpa using numberLines_get? 0 reqs j r hjr
  refine ⟨hsplit, ?_, hget, ?_⟩
  · rw [hsplit, List.length_map, numberLines_length]
  · intro j r hjr
    rw [hsplit, List.get?_map, hget j r hjr]
    rfl

/-- Witness for C6: a concrete two-requirement list produces the two
numbered lines. -/
theorem c6_witness :
    (["alpha", "beta"] : List String) ≠ [] ∧
    (∀ r ∈ (["alpha", "beta"] : List String), '\n' ∉ r.data) ∧
    (splitNL (assembleRequirementsBlock ["alpha", "beta"]).data =
       (numberLines 0 ["alpha", "beta"]).map String.data ∧
     (splitNL (assembleRequirementsBlock ["alpha", "beta"]).data).length =
       (["alpha", "beta"] : List String).length ∧
     (∀ j r, (["alpha", "beta"] : List String).get? j = some r →
       (numberLines 0 ["alpha", "beta"]).get? j = some (toString (j + 1) ++ ". " ++ r)) ∧
     (∀ j r, (["alpha", "beta"] : List String).get? j = some r →
       (splitNL (assembleRequirementsBlock ["alpha", "beta"]).data).get? j =
         some ((toString (j + 1) ++ ". " ++ r).data))) :=
  ⟨by decide, by decide,
   c6_requirements_block_lines ["alpha", "beta"] (by decide) (by decide)⟩

theorem itemFromJson_itemToJson (it : CampaignItem) :
    itemFromJson (itemToJson it) = some it := by
  cases it with
  | mk n pr ip ts => cases ip <;> rfl

/-- Parse every entry of a JSON array of campaign items, failing if any
entry fails (the model of reading the log entries back). -/
def decodeItems : List Json → Option (List CampaignItem)
  | [] => some []
  | j :: rest =>
    match itemFromJson j, decodeItems rest with
    | some it, some its => some (it :: its)
    | _, _ => none

theorem decodeItems_roundtrip (items : List CampaignItem) :
    decodeItems (items.map itemToJson) = some items := by
  induction items with
  | nil => rfl
  | cons it rest ih =>
    simp [decodeItems, itemFromJson_itemToJson, ih]

/-- C7: writing the generation log and reading the JSON back is lossless:
the document sits at the fixed name `generation_log.json` inside the
output directory; its `total_images` field equals the length of its
`images` array; the `images` array is exactly the accumulated items in
order, and decoding it restores every field of every item; the write is
a single overwriting write — reading the path after writing over any
prior file system state yields exactly the new document, and a full run
performs exactly one log write. -/
theorem c7_log_round_trip (env : GenEnv) (items : List CampaignItem)
    (v : ClassVariant) (n : Int) :
    (saveGenerationLog env items).1 = os_path_join env.output_dir ("generation_log.json") ∧
    logTotal (saveGenerationLog env items).2 = some (((items.map itemToJson).length : Int)) ∧
    logImages (saveGenerationLog env items).2 = some (items.map itemToJson) ∧
    decodeItems (items.map itemToJson) = some items ∧
    (∀ fs : List (String × Json),
      fsRead (fsWrite fs (saveGenerationLog env items).1 (saveGenerationLog env items).2)
        (saveGenerationLog env items).1 = some (saveGenerationLog env items).2) ∧
    (generate_all_ads v env n).effects.filter isLogWrite =
      [MainEffect.wroteLog (saveGenerationLog env (generate_all_ads v env n).items).1
        (saveGenerationLog env (generate_all_ads v env n).items).2] := by
  refine ⟨rfl, ?_, rfl, decodeItems_roundtrip items, ?_, log_write_once v env n⟩
  · show some ((items.length : Int)) = some (((items.map itemToJson).length : Int))
    rw [List.length_map]
  · intro fs
    simp [fsRead, fsWrite]

/-- Recogniser for console output among the observable effects. -/
def isPrintEffect : MainEffect → Bool
  | MainEffect.printed _ => true
  | _ => false

/-- C8: when the API credential is absent from the environment, `main`
detects it before constructing the generator or touching the network:
the whole run consists of the single printed diagnostic, it does not
raise, and no directory creation, file write or network call occurs. -/
theorem c8_missing_credential_clean_abort (os : OSEnv)
    (h : os.getenv ("GOOGLE_API_KEY") = none) :
    mainT3 os = ([MainEffect.printed missingKeyMsg], false) ∧
    (∀ e ∈ (mainT3 os).1, e = MainEffect.printed missingKeyMsg) ∧
    (mainT3 os).1.filter (fun e => !isPrintEffect e) = [] := by
  have hmain : mainT3 os = ([MainEffect.printed missingKeyMsg], false) := by
    unfold mainT3
    rw [h]
    rfl
  refine ⟨hmain, ?_, ?_⟩
  · intro e he
    rw [hmain] at he
    simpa using he
  · rw [hmain]
    rfl

/-- Witness for C8: the concrete empty process environment aborts with
only the diagnostic. -/
theorem c8_witness :
    noneOS.getenv ("GOOGLE_API_KEY") = none ∧
    (mainT3 noneOS = ([MainEffect.printed missingKeyMsg], false) ∧
     (∀ e ∈ (mainT3 noneOS).1, e = MainEffect.printed missingKeyMsg) ∧
     (mainT3 noneOS).1.filter (fun e => !isPrintEffect e) = []) :=
  ⟨rfl, c8_missing_credential_clean_abort noneOS rfl⟩

/-- C9 counterexample: no script of the repository sends a `.png`
reference image declared with MIME type `image/jpeg`: src/test.py
declares the matching `image/png` and the other variants declare no MIME
type at all, refuting the claimed `.png`-as-`image/jpeg` declaration. -/
theorem c9_counterexample :
    ¬ ∃ v : ScriptVariant, ∃ pm ∈ referenceMimeDecls v,
      endsWithB (".png") pm.1 = true ∧ pm.2 = some ("image/jpeg") := by
  decide

/-- C9 (amended): the variants do differ in MIME handling for the same
`.png` extension — src/test.py declares an explicit MIME type while
src/test3.py declares none — but the explicit declaration is the
matching `image/png`, not `image/jpeg`. -/
theorem c9_mime_declarations :
    referenceMimeDecls ScriptVariant.testpy =
      [("/home/ehwkang/DTS_folked/image/Brooks_1.png", some ("image/png"))] ∧
    endsWithB (".png") ("/home/ehwkang/DTS_folked/image/Brooks_1.png") = true ∧
    (∀ pm ∈ referenceMimeDecls ScriptVariant.test3, pm.2 = none) ∧
    referenceMimeDecls ScriptVariant.test2 = [] := by
  exact ⟨rfl, by decide, by decide, rfl⟩

/-- C10: calling `generate_all_ads` with `num_images ≤ 0` iterates zero
times: no text or image call is attempted, the returned item list is
empty, and the only effect is the single log write, whose document has
`total_images` 0 and an empty `images` array. -/
theorem c10_nonpositive_count_empty_run (v : ClassVariant) (env : GenEnv) (n : Int)
    (h : n ≤ 0) :
    pyIndices n = [] ∧
    (generate_all_ads v env n).items = [] ∧
    (generate_all_ads v env n).effects =
      [MainEffect.wroteLog (saveGenerationLog env []).1 (saveGenerationLog env []).2] ∧
    (saveGenerationLog env []).1 = os_path_join env.output_dir ("generation_log.json") ∧
    logTotal (saveGenerationLog env []).2 = some 0 ∧
    logImages (saveGenerationLog env []).2 = some [] := by
  have hpy : pyIndices n = [] := by
    unfold pyIndices
    have h0 : n.toNat = 0 := by omega
    rw [h0]
    rfl
  have hitems : (generate_all_ads v env n).items = [] := by
    rw [items_eq, hpy]
    rfl
  refine ⟨hpy, hitems, ?_, rfl, rfl, rfl⟩
  rw [effects_eq, hpy, hitems]
  rfl

/-- Witness for C10: a concrete run with a negative requested count
produces the empty-run log and nothing else. -/
theorem c10_witness :
    (-3 : Int) ≤ 0 ∧
    (pyIndices (-3) = [] ∧
     (generate_all_ads ClassVariant.t3 failEnv (-3)).items = [] ∧
     (generate_all_ads ClassVariant.t3 failEnv (-3)).effects =
       [MainEffect.wroteLog (saveGenerationLog failEnv []).1 (saveGenerationLog failEnv []).2] ∧
     (saveGenerationLog failEnv []).1 = os_path_join failEnv.output_dir ("generation_log.json") ∧
     logTotal (saveGenerationLog failEnv []).2 = some 0 ∧
     logImages (saveGenerationLog failEnv []).2 = some []) :=
  ⟨by decide, c10_nonpositive_count_empty_run ClassVariant.t3 failEnv (-3) (by decide)⟩
